import Mathlib

/-!
Verification of the MasterBlog post-collection backend.

This file shallowly embeds the data model and operations of the blog
backend (`backend/models.py`, `backend/routes/posts.py`,
`backend/routes/utils.py`) and proves properties of them.

Conventions of the embedding:
* Python objects become Lean structures; `to_dict` results become separate
  `...Dict` structures so that the object/dict distinction of the source is
  kept.
* Timestamps are ISO-8601 strings, exactly as the source stores them; the
  current wall-clock reading is passed in as an explicit `now : String`
  argument wherever the source calls `datetime.now(UTC)` / `datetime.utcnow()`.
* A freshly generated `uuid4().hex` value is passed in as an explicit
  argument wherever the source generates one.
* Raising an exception becomes returning `Except.error`.
* The backing JSON file becomes an explicit value: `none` models a missing
  file, `some ds` a file holding the JSON array `ds`.
-/

namespace MasterBlog

/-- Models the `Comment` class of `backend/models.py`: `{id, post_id, content}`. -/
structure Comment where
  id : String
  post_id : String
  content : String
deriving DecidableEq

/-- Models the `Category` class of `backend/models.py`: `{id, name}`. -/
structure Category where
  id : String
  name : String
deriving DecidableEq

/-- Models the `Tag` class of `backend/models.py`: `{id, name}`. -/
structure Tag where
  id : String
  name : String
deriving DecidableEq

/-- Models the `Post` class of `backend/models.py`. -/
structure Post where
  id : String
  title : String
  content : String
  author : String
  date : String
  comments : List Comment
  categories : List Category
  tags : List Tag
deriving DecidableEq

/-- The dictionary produced by `Comment.to_dict`. -/
structure CommentDict where
  id : String
  post_id : String
  content : String
deriving DecidableEq

/-- The dictionary produced by `Category.to_dict`. -/
structure CategoryDict where
  id : String
  name : String
deriving DecidableEq

/-- The dictionary produced by `Tag.to_dict`. -/
structure TagDict where
  id : String
  name : String
deriving DecidableEq

/-- The dictionary produced by `Post.to_dict`: keys
`id, title, content, author, date, comments, categories, tags`. -/
structure PostDict where
  id : String
  title : String
  content : String
  author : String
  date : String
  comments : List CommentDict
  categories : List CategoryDict
  tags : List TagDict
deriving DecidableEq

/-- `Comment.to_dict`. -/
def Comment.to_dict (c : Comment) : CommentDict :=
  { id := c.id, post_id := c.post_id, content := c.content }

/-- `Category.to_dict`. -/
def Category.to_dict (c : Category) : CategoryDict :=
  { id := c.id, name := c.name }

/-- `Tag.to_dict`. -/
def Tag.to_dict (t : Tag) : TagDict :=
  { id := t.id, name := t.name }

/-- `Post.to_dict`. -/
def Post.to_dict (p : Post) : PostDict :=
  { id := p.id, title := p.title, content := p.content, author := p.author,
    date := p.date,
    comments := p.comments.map Comment.to_dict,
    categories := p.categories.map Category.to_dict,
    tags := p.tags.map Tag.to_dict }

/-- The keyword-parameter names of `Post.__init__`
(`self` excluded): `post_id, title, content, author, date, comments,
categories, tags`. -/
def postInitParams : List String :=
  ["post_id", "title", "content", "author", "date", "comments", "categories", "tags"]

/-- The parameters of `Post.__init__` without a default value. -/
def postInitRequired : List String :=
  ["post_id", "title", "content", "author"]

/-- The keys of the dictionary written by `Post.to_dict` (and hence the keys of
every record in the JSON file written by `save_posts`). -/
def postDictKeys : List String :=
  ["id", "title", "content", "author", "date", "comments", "categories", "tags"]

/-- Interpreting a stored comment dictionary as a `Comment` object. -/
def CommentDict.toComment (d : CommentDict) : Comment :=
  { id := d.id, post_id := d.post_id, content := d.content }

/-- Interpreting a stored category dictionary as a `Category` object. -/
def CategoryDict.toCategory (d : CategoryDict) : Category :=
  { id := d.id, name := d.name }

/-- Interpreting a stored tag dictionary as a `Tag` object. -/
def TagDict.toTag (d : TagDict) : Tag :=
  { id := d.id, name := d.name }

/-- Models the expression `Post(**post_data)` in `PostList.load_posts`.
Python keyword binding succeeds only when every key of the dictionary is a
parameter name of `Post.__init__` and every parameter without a default is
bound; otherwise the call raises `TypeError`, modelled as `Except.error ()`.
The success branch builds the post the binding would produce. (The saved key
`"id"` is not a parameter of `Post.__init__`, whose first parameter is
`post_id`, so for dictionaries written by `save_posts` the binding check
fails.) -/
def loadPostDict (d : PostDict) : Except Unit Post :=
  if (postDictKeys.all fun k => postInitParams.contains k)
      && (postInitRequired.all fun k => postDictKeys.contains k) then
    .ok { id := d.id, title := d.title, content := d.content, author := d.author,
          date := d.date,
          comments := d.comments.map CommentDict.toComment,
          categories := d.categories.map CategoryDict.toCategory,
          tags := d.tags.map TagDict.toTag }
  else
    .error ()

/-- Models `PostList.save_posts`: the file is overwritten with the JSON array
`[post.to_dict() for post in self.posts]`. -/
def save_posts (posts : List Post) : List PostDict :=
  posts.map Post.to_dict

/-- Models `PostList.load_posts`. A missing file (`none`) yields an empty
collection; a present well-formed file is parsed and each record passed to
`Post(**post_data)` (see `loadPostDict`); a `TypeError` raised there is not
caught by the `except (IOError, json.JSONDecodeError)` handler and
propagates, modelled as `Except.error ()`. (The corrupt-file branch, which
the handler maps to an empty collection, is not needed here because files
written by `save_posts` are always well-formed JSON.) -/
def load_posts (file : Option (List PostDict)) : Except Unit (List Post) :=
  match file with
  | none => .ok []
  | some ds => ds.mapM loadPostDict

/-- A sample post with non-empty nested comment, category and tag lists. -/
def examplePost : Post :=
  { id := "p1", title := "First post", content := "hello world", author := "alice",
    date := "2024-01-01T00:00:00+00:00",
    comments := [{ id := "c1", post_id := "p1", content := "nice" }],
    categories := [{ id := "g1", name := "general" }],
    tags := [{ id := "t1", name := "intro" }] }

/-! ## String helpers

Python compares strings lexicographically by code point and `str.lower`
maps cased letters to their lowercase forms (modelled here on the ASCII
range, the only range the repository's data exercises). These helpers work
on `String.data` so that every definition reduces inside the kernel. -/

/-- ASCII lowercasing of one character (models `str.lower` per character). -/
def lowerChar (c : Char) : Char :=
  if 65 ≤ c.toNat ∧ c.toNat ≤ 90 then Char.ofNat (c.toNat + 32) else c

/-- Models Python `s.lower()`. -/
def pyLower (s : String) : String := ⟨s.data.map lowerChar⟩

/-- Code-point lexicographic `≤` on character sequences: models Python
string comparison `s1 <= s2`. -/
def seqLe : List Char → List Char → Bool
  | [], _ => true
  | _ :: _, [] => false
  | a :: as, b :: bs =>
    if a.toNat < b.toNat then true
    else if b.toNat < a.toNat then false
    else seqLe as bs

/-- Models Python string `<=` (used through `sorted`'s key comparisons). -/
def pyStrLe (a b : String) : Bool := seqLe a.data b.data

/-- Does `hay` start with `needle`? -/
def seqStartsWith : List Char → List Char → Bool
  | [], _ => true
  | _ :: _, [] => false
  | a :: as, b :: bs => a == b && seqStartsWith as bs

/-- Does `hay` contain `needle` as a contiguous subsequence? Models Python
`needle in hay` on strings. -/
def seqContains (needle : List Char) : List Char → Bool
  | [] => seqStartsWith needle []
  | c :: rest => seqStartsWith needle (c :: rest) || seqContains needle rest

/-- Models the Python expression `needle in hay` on strings. -/
def pyStrIn (needle hay : String) : Bool := seqContains needle.data hay.data

/-- `needle` occurs contiguously inside `hay` (specification-level
counterpart of `pyStrIn`). -/
def SubstrOf (needle hay : String) : Prop :=
  ∃ p q, hay.data = p ++ needle.data ++ q

/-! ## The domain errors and the collection operations -/

/-- The two domain exceptions of `backend/models.py`:
`PostNotFoundException` and `InvalidDataException`, with their messages. -/
inductive BlogError where
  | postNotFound (msg : String)
  | invalidData (msg : String)
deriving DecidableEq

/-- Models `PostList.find_post_by_id`: first post with the given id, `none`
when absent. -/
def find_post_by_id (posts : List Post) (post_id : String) : Option Post :=
  posts.find? fun p => p.id == post_id

/-- Models `PostList.add_post`. The source generates `new_id` with
`uuid.uuid4().hex` and the timestamp with `datetime.now(UTC).isoformat()`;
both are passed in explicitly here. Returns the new collection and the new
post. -/
def add_post (posts : List Post) (new_id title content author now : String)
    (categories : List Category) (tags : List Tag) : List Post × Post :=
  let new_post : Post :=
    { id := new_id, title := title, content := content, author := author,
      date := now, comments := [], categories := categories, tags := tags }
  (posts ++ [new_post], new_post)

/-- Models `PostList.delete_post`: on success returns the remaining
collection (`[post for post in self.posts if post.id != post_id]`) and the
deleted post; otherwise raises `PostNotFoundException`. -/
def delete_post (posts : List Post) (post_id : String) :
    Except BlogError (List Post × Post) :=
  match find_post_by_id posts post_id with
  | some post => .ok (posts.filter fun p => p.id != post_id, post)
  | none => .error (.postNotFound ("Post with ID " ++ post_id ++ " not found"))

/-- In-place mutation of the post object returned by `find_post_by_id`
affects exactly the first list entry with the given id; `replaceFirst`
expresses that on an immutable list. -/
def replaceFirst (posts : List Post) (post_id : String) (updated : Post) :
    List Post :=
  match posts with
  | [] => []
  | q :: rest =>
    if q.id == post_id then updated :: rest
    else q :: replaceFirst rest post_id updated

/-- Models `PostList.update_post`. The source sets
`post.date = datetime.utcnow().isoformat()`; the clock reading is the
explicit `now` argument. Returns the updated collection and the updated
post, or raises `PostNotFoundException`. -/
def update_post (posts : List Post) (post_id title content author now : String) :
    Except BlogError (List Post × Post) :=
  match find_post_by_id posts post_id with
  | some post =>
    let updated : Post :=
      { post with title := title, content := content, author := author, date := now }
    .ok (replaceFirst posts post_id updated, updated)
  | none => .error (.postNotFound ("Post with ID " ++ post_id ++ " not found"))

/-- Python truthiness of an optional string: `None` and `""` are falsy. -/
def pyTruthyStr (s : Option String) : Bool := s.getD "" != ""

/-- Models `getattr(post, sort_by)` for the whitelisted field names (the
only names `sort_posts` passes; any other name would raise
`AttributeError`, which cannot occur after the whitelist check, so the
final branch is unreachable in the source's control flow). -/
def sortFieldValue (field : String) (p : Post) : String :=
  if field == "title" then p.title
  else if field == "content" then p.content
  else if field == "author" then p.author
  else if field == "date" then p.date
  else ""

/-- The comparison `sorted(self.posts, key=lambda post: getattr(post, sort_by),
reverse=direction == "desc")` sorts by: key ascending when `direction` is not
`"desc"`, key descending otherwise (Python's `sorted` stays stable in both
cases). -/
def sortRel (field direction : String) (a b : Post) : Prop :=
  if direction == "desc" then
    pyStrLe (sortFieldValue field b) (sortFieldValue field a) = true
  else
    pyStrLe (sortFieldValue field a) (sortFieldValue field b) = true

instance sortRelDecidable (field direction : String) :
    DecidableRel (sortRel field direction) := by
  unfold sortRel
  infer_instance

/-- Models `PostList.sort_posts`. Python's `sorted` is a stable sort; the
embedding uses `List.insertionSort`, which is stable and sorted with respect
to the same total preorder, hence produces the same list. Note `if sort_by:`
treats both `None` and the empty string as "no sort". -/
def sort_posts (posts : List Post) (sort_by : Option String) (direction : String) :
    Except BlogError (List Post) :=
  if pyTruthyStr sort_by then
    let field := sort_by.getD ""
    if ¬ (field ∈ ["title", "content", "author", "date"]) then
      .error (.invalidData "Invalid sort_by parameter")
    else if ¬ (direction ∈ ["asc", "desc"]) then
      .error (.invalidData "Invalid direction parameter")
    else
      .ok (List.insertionSort (sortRel field direction) posts)
  else
    .ok posts

/-- The request body restricted to the fields `validate_post_data` reads.
A field is `none` when the key is absent and `some s` when present with
value `s`. -/
structure RequestData where
  title : Option String
  content : Option String
  author : Option String
deriving DecidableEq

/-- Python truthiness of the request dictionary (`if not data`): the dict is
falsy when it has no keys. (The model carries only the three relevant keys.) -/
def requestTruthy (d : RequestData) : Bool :=
  d.title.isSome || d.content.isSome || d.author.isSome

/-- Truthiness of one field value: absent or empty is falsy
(`field not in data or not data[field]`). -/
def pyFieldTruthy : Option String → Bool
  | none => false
  | some s => s != ""

/-- Models `PostList.validate_post_data`: `None` or an empty dict fails with
"No data provided"; then the required fields `title, content, author` are
checked in order and the first missing/empty one is reported. -/
def validate_post_data (data : Option RequestData) : Except BlogError Unit :=
  match data with
  | none => .error (.invalidData "No data provided")
  | some d =>
    if !requestTruthy d then .error (.invalidData "No data provided")
    else if !pyFieldTruthy d.title then
      .error (.invalidData "Missing or empty field: title")
    else if !pyFieldTruthy d.content then
      .error (.invalidData "Missing or empty field: content")
    else if !pyFieldTruthy d.author then
      .error (.invalidData "Missing or empty field: author")
    else .ok ()

/-! ## Persistence: the in-memory list together with the backing file

Each mutating method of `PostList` calls `self.save_posts()` after the
mutation; on its error path it raises before touching the list or the file.
The `*_step` functions embed one method call as a transition on the pair
(in-memory posts, file contents), returning the resulting state together
with the method's outcome. -/

/-- The shared mutable state: `self.posts` and the contents of
`self.file_path`. -/
structure Store where
  posts : List Post
  file : List PostDict
deriving DecidableEq

/-- One call of `PostList.delete_post` as a state transition. -/
def delete_step (s : Store) (post_id : String) : Store × Except BlogError Post :=
  match delete_post s.posts post_id with
  | .ok (rest, p) => ({ posts := rest, file := save_posts rest }, .ok p)
  | .error e => (s, .error e)

/-- One call of `PostList.update_post` as a state transition. -/
def update_step (s : Store) (post_id title content author now : String) :
    Store × Except BlogError Post :=
  match update_post s.posts post_id title content author now with
  | .ok (ps, p) => ({ posts := ps, file := save_posts ps }, .ok p)
  | .error e => (s, .error e)

/-- One call of `PostList.add_post` as a state transition. -/
def add_step (s : Store) (new_id title content author now : String) :
    Store × Post :=
  let (ps, p) := add_post s.posts new_id title content author now [] []
  ({ posts := ps, file := save_posts ps }, p)

/-- One call of `PostList.sort_posts` as a state transition: `sorted` builds
a new list, never assigns to `self.posts`, and the method never calls
`save_posts`. -/
def sort_step (s : Store) (sort_by : Option String) (direction : String) :
    Store × Except BlogError (List Post) :=
  (s, sort_posts s.posts sort_by direction)

/-- One call of the static method `PostList.validate_post_data` as a state
transition: it reads only its argument. -/
def validate_step (s : Store) (data : Option RequestData) :
    Store × Except BlogError Unit :=
  (s, validate_post_data data)

/-! ## Pagination helper (`backend/routes/utils.py`) -/

/-- Normalization of one Python slice bound for `l[a:b]`: a negative bound
counts from the end (clamped at 0), a non-negative one is clamped at the
length. -/
def pySliceIdx (n : Nat) (i : Int) : Nat :=
  if i < 0 then ((n : Int) + i).toNat else min i.toNat n

/-- Python list slicing `l[a:b]` with integer bounds (never an error). -/
def pySlice {α : Type} (l : List α) (a b : Int) : List α :=
  (l.take (pySliceIdx l.length b)).drop (pySliceIdx l.length a)

/-- Python `dict.update` for one key: replaces the value in place when the
key is present, appends the pair otherwise. -/
def dictUpdate (d : List (String × String)) (k v : String) :
    List (String × String) :=
  if d.any fun kv => kv.fst == k then
    d.map fun kv => if kv.fst == k then (k, v) else kv
  else
    d ++ [(k, v)]

/-- Models `"&".join([f"{key}={value}" for key, value in query_params.items()])`. -/
def joinQuery : List (String × String) → String
  | [] => ""
  | [kv] => kv.fst ++ "=" ++ kv.snd
  | kv :: kv2 :: rest => kv.fst ++ "=" ++ kv.snd ++ "&" ++ joinQuery (kv2 :: rest)

/-- Models `paginate_results` of `backend/routes/utils.py`. `query_params`
is `none` when the caller omits the argument (Python default `None`);
`query_params or {}` turns that into an empty dict. Integers render in the
query string exactly as Python's f-string renders an `int`. -/
def paginate_results {α : Type} (results : List α) (page per_page : Int)
    (base_url : String) (query_params : Option (List (String × String))) :
    List α × Option String :=
  let start := (page - 1) * per_page
  let stop := start + per_page
  let paginated_results := pySlice results start stop
  let next_url : Option String :=
    if stop < (results.length : Int) then
      let qp := query_params.getD []
      let qp := dictUpdate (dictUpdate qp "page" (toString (page + 1)))
        "per_page" (toString per_page)
      some (base_url ++ "?" ++ joinQuery qp)
    else
      none
  (paginated_results, next_url)

/-! ## The list-returning routes (`backend/routes/posts.py`)

A query-string argument that is fed to `int(...)` is modelled as
`Option (Except Unit Int)`: `none` when absent (so the route's default is
used), `some (.error ())` when present but not an integer literal (Python
`int` raises `ValueError`), `some (.ok n)` when present with value `n`.
A route's respone is `Except Nat body`, the error carrying the HTTP
status code the route returns. -/

/-- Models `int(request.args.get(name, default))`. -/
def pyGetIntArg (arg : Option (Except Unit Int)) (default : Int) :
    Except Unit Int :=
  arg.getD (.ok default)

/-- Models the route `GET /api/v1/posts` (`get_posts`): parses `page` and
`per_page` (ValueError → 400), rejects non-positive values with 400, then
paginates `post_list.get_all()`. -/
def get_posts_route (posts : List Post) (base_url : String)
    (pageArg perPageArg : Option (Except Unit Int)) :
    Except Nat (List PostDict × Option String) :=
  match pyGetIntArg pageArg 1, pyGetIntArg perPageArg 10 with
  | .ok page, .ok per_page =>
    if page < 1 || per_page < 1 then .error 400
    else .ok (paginate_results (posts.map Post.to_dict) page per_page base_url none)
  | _, _ => .error 400

/-- The filtering step of the route `GET /api/v1/posts/search`:
posts whose lowercased title, content or author contains the lowercased
query, kept in collection order. -/
def postMatches (query : String) (post : Post) : Bool :=
  pyStrIn (pyLower query) (pyLower post.title)
  || pyStrIn (pyLower query) (pyLower post.content)
  || pyStrIn (pyLower query) (pyLower post.author)

/-- The list comprehension of `search_posts` (without the `to_dict`
projection). -/
def searchFilter (posts : List Post) (query : String) : List Post :=
  posts.filter (postMatches query)

/-- Models the route `GET /api/v1/posts/search` (`search_posts`): parses
`page`/`per_page` (ValueError → 400, raised before the query check), rejects
a missing or empty `query` with 400, then filters and paginates. There is no
positivity check on `page`/`per_page` in this route. -/
def search_posts_route (posts : List Post) (base_url : String)
    (query : Option String) (pageArg perPageArg : Option (Except Unit Int)) :
    Except Nat (List PostDict × Option String) :=
  match pyGetIntArg pageArg 1, pyGetIntArg perPageArg 10 with
  | .ok page, .ok per_page =>
    if ¬ pyTruthyStr query then .error 400
    else
      let q := query.getD ""
      let results := (searchFilter posts q).map Post.to_dict
      .ok (paginate_results results page per_page base_url (some [("query", q)]))
  | _, _ => .error 400

/-- Models the route `GET /api/v1/posts/sort` (`sort_posts`): calls
`PostList.sort_posts` first (`InvalidDataException` → 400), then parses
`page`/`per_page` with `int(...)`. Unlike the other two list routes this
one has no `ValueError` handler: a non-integer value raises `ValueError`
into the generic `except Exception` handler, which answers 500. The route
then paginates the sorted posts and passes the resulting raw `Post`
objects to `jsonify`; Flask's JSON encoder cannot serialize `Post`
instances, so a non-empty page slice raises `TypeError` into the same
generic handler (500) and only an empty slice is answered with 200. There
is no positivity check on `page`/`per_page` in this route. An absent
`sort_by` renders as `"None"` in the next-page query string, exactly as
the f-string renders Python's `None`. -/
def sort_posts_route (posts : List Post) (base_url : String)
    (sort_by : Option String) (direction : Option String)
    (pageArg perPageArg : Option (Except Unit Int)) :
    Except Nat (List Post × Option String) :=
  match sort_posts posts sort_by (direction.getD "asc") with
  | .error _ => .error 400
  | .ok sorted_posts =>
    match pyGetIntArg pageArg 1, pyGetIntArg perPageArg 10 with
    | .ok page, .ok per_page =>
      let pr := paginate_results sorted_posts page per_page base_url
        (some [("sort_by", sort_by.getD "None"), ("direction", direction.getD "asc")])
      if pr.fst.isEmpty then .ok pr else .error 500
    | _, _ => .error 500

/-! ## Lemmas about the string helpers -/

theorem seqStartsWith_iff (needle : List Char) :
    ∀ hay : List Char, seqStartsWith needle hay = true ↔ ∃ q, hay = needle ++ q := by
  induction needle with
  | nil => intro hay; simp [seqStartsWith]
  | cons a as ih =>
    intro hay
    cases hay with
    | nil =>
      simp [seqStartsWith]
    | cons b bs =>
      simp only [seqStartsWith, Bool.and_eq_true, beq_iff_eq, ih bs, List.cons_append,
        List.cons.injEq]
      constructor
      · rintro ⟨rfl, q, rfl⟩
        exact ⟨q, rfl, rfl⟩
      · rintro ⟨q, rfl, rfl⟩
        exact ⟨rfl, q, rfl⟩

theorem seqContains_iff (needle : List Char) :
    ∀ hay : List Char, seqContains needle hay = true ↔ ∃ p q, hay = p ++ needle ++ q := by
  intro hay
  induction hay with
  | nil =>
    simp only [seqContains, seqStartsWith_iff]
    constructor
    · rintro ⟨q, hq⟩
      exact ⟨[], q, by simpa using hq⟩
    · rintro ⟨p, q, hpq⟩
      rw [List.nil_eq, List.append_assoc, List.append_eq_nil] at hpq
      exact ⟨q, by simp [hpq.1, hpq.2]⟩
  | cons c rest ih =>
    simp only [seqContains, Bool.or_eq_true, seqStartsWith_iff, ih]
    constructor
    · rintro (⟨q, hq⟩ | ⟨p, q, hpq⟩)
      · exact ⟨[], q, by simpa using hq⟩
      · exact ⟨c :: p, q, by simp [hpq]⟩
    · rintro ⟨p, q, hpq⟩
      cases p with
      | nil => exact Or.inl ⟨q, by simpa using hpq⟩
      | cons x xs =>
        simp only [List.cons_append, List.cons.injEq] at hpq
        exact Or.inr ⟨xs, q, hpq.2⟩

/-- The boolean `pyStrIn` decides the substring relation `SubstrOf`. -/
theorem pyStrIn_iff (needle hay : String) :
    pyStrIn needle hay = true ↔ SubstrOf needle hay := by
  unfold pyStrIn SubstrOf
  rw [seqContains_iff]

theorem substrOf_refl (n : String) : SubstrOf n n :=
  ⟨[], [], by simp⟩

theorem substrOf_append_left (g : String) {n h : String} (hs : SubstrOf n h) :
    SubstrOf n (g ++ h) := by
  obtain ⟨p, q, hpq⟩ := hs
  exact ⟨g.data ++ p, q, by simp [String.data_append, hpq, List.append_assoc]⟩

theorem substrOf_append_right (g : String) {n h : String} (hs : SubstrOf n h) :
    SubstrOf n (h ++ g) := by
  obtain ⟨p, q, hpq⟩ := hs
  exact ⟨p, q ++ g.data, by simp [String.data_append, hpq, List.append_assoc]⟩

theorem seqLe_refl (a : List Char) : seqLe a a = true := by
  induction a with
  | nil => rfl
  | cons x xs ih => simp [seqLe, ih]

theorem seqLe_total (a : List Char) : ∀ b, seqLe a b = true ∨ seqLe b a = true := by
  induction a with
  | nil => intro b; exact Or.inl rfl
  | cons x xs ih =>
    intro b
    cases b with
    | nil => exact Or.inr rfl
    | cons y ys =>
      simp only [seqLe]
      rcases Nat.lt_trichotomy x.toNat y.toNat with h | h | h
      · left; simp [h]
      · rcases ih ys with h2 | h2
        · left; simp [h, h2]
        · right; simp [h.symm, h2]
      · right; simp [h]

theorem seqLe_trans : ∀ {a b c : List Char},
    seqLe a b = true → seqLe b c = true → seqLe a c = true := by
  intro a
  induction a with
  | nil => intro b c _ _; rfl
  | cons x xs ih =>
    intro b c hab hbc
    cases b with
    | nil => simp [seqLe] at hab
    | cons y ys =>
      cases c with
      | nil => simp [seqLe] at hbc
      | cons z zs =>
        simp only [seqLe] at hab hbc ⊢
        split_ifs at hab hbc ⊢ with h1 h2 h3 h4 h5 h6 <;>
          first
          | rfl
          | omega
          | (exact ih hab hbc)

theorem pyStrLe_refl (a : String) : pyStrLe a a = true := seqLe_refl a.data

theorem pyStrLe_total (a b : String) : pyStrLe a b = true ∨ pyStrLe b a = true :=
  seqLe_total a.data b.data

theorem pyStrLe_trans {a b c : String} (h1 : pyStrLe a b = true)
    (h2 : pyStrLe b c = true) : pyStrLe a c = true :=
  seqLe_trans h1 h2

/-! ## Lemmas about the pagination helper -/

theorem mem_dictUpdate_self (d : List (String × String)) (k v : String) :
    (k, v) ∈ dictUpdate d k v := by
  unfold dictUpdate
  split
  case isTrue h =>
    rw [List.any_eq_true] at h
    obtain ⟨kv, hkv, hk⟩ := h
    exact List.mem_map.mpr ⟨kv, hkv, by simp [hk]⟩
  case isFalse h =>
    exact List.mem_append_right _ (by simp)

theorem mem_dictUpdate_of_ne {kv : String × String} {d : List (String × String)}
    (k v : String) (h : kv ∈ d) (hne : kv.fst ≠ k) : kv ∈ dictUpdate d k v := by
  unfold dictUpdate
  split
  case isTrue _ =>
    exact List.mem_map.mpr ⟨kv, h, by simp [hne]⟩
  case isFalse _ =>
    exact List.mem_append_left _ h

theorem substrOf_joinQuery {kv : String × String} :
    ∀ {l : List (String × String)}, kv ∈ l →
      SubstrOf (kv.fst ++ "=" ++ kv.snd) (joinQuery l) := by
  intro l
  induction l with
  | nil => intro h; cases h
  | cons x rest ih =>
    intro h
    cases rest with
    | nil =>
      rcases List.mem_singleton.mp h with rfl
      exact substrOf_refl _
    | cons y rest2 =>
      rcases List.mem_cons.mp h with rfl | h2
      · exact substrOf_append_right _ (substrOf_append_right _ (substrOf_refl _))
      · exact substrOf_append_left _ (ih h2)

theorem pySlice_nonneg {α : Type} (l : List α) (a pp : Int) (ha : 0 ≤ a) (hpp : 0 ≤ pp) :
    pySlice l a (a + pp) = (l.drop a.toNat).take pp.toNat := by
  unfold pySlice pySliceIdx
  rw [if_neg (by omega), if_neg (by omega), Int.toNat_add ha hpp]
  rcases le_total (a.toNat + pp.toNat) l.length with h1 | h1
  · rw [min_eq_left h1, min_eq_left (by omega), List.drop_take]
    congr 1
    omega
  · rcases le_total a.toNat l.length with h2 | h2
    · rw [min_eq_right h1, min_eq_left h2, List.take_length,
        List.take_of_length_le (by rw [List.length_drop]; omega)]
    · rw [min_eq_right h1, min_eq_right h2, List.take_length, List.drop_length,
        List.drop_eq_nil_of_le h2, List.take_nil]

/-- C1: the claim asserts that saving any collection (including one with
non-empty nested comment/category/tag lists) and reloading it reproduces an
equal collection. The code cannot do this: every record written by
`save_posts` carries the key `"id"`, which is not a parameter of
`Post.__init__` (the parameter is named `post_id`), so `Post(**post_data)`
in `load_posts` raises `TypeError`, which the `except (IOError,
json.JSONDecodeError)` handler does not catch. Reloading the file written
for the one-post collection `[examplePost]` therefore fails instead of
reproducing the collection. -/
theorem save_load_roundtrip_fails :
    load_posts (some (save_posts [examplePost])) = .error () := by rfl

/-- C2: for every result list, positive `page` and `per_page` and any base
URL and extra query parameters, `paginate_results` returns exactly the
slice `results[(page-1)*per_page : (page-1)*per_page + per_page]` (never an
error, at most `per_page` elements), returns a next-page URL exactly when
`(page-1)*per_page + per_page < len(results)`, and that URL contains
`page+1` and the same `per_page`; on the 25-element list `[1..25]` with
`per_page = 10`, page 2 yields elements 11–20 with a next URL containing
`page=3&per_page=10` and page 3 yields elements 21–25 with no next URL. -/
theorem paginate_results_spec {α : Type} (results : List α) (page per_page : Int)
    (base_url : String) (query_params : Option (List (String × String)))
    (hp : 1 ≤ page) (hpp : 1 ≤ per_page) :
    ((paginate_results results page per_page base_url query_params).fst
        = (results.drop ((page - 1) * per_page).toNat).take per_page.toNat) ∧
    ((paginate_results results page per_page base_url query_params).fst.length
        ≤ per_page.toNat) ∧
    (((paginate_results results page per_page base_url query_params).snd.isSome = true)
        ↔ (page - 1) * per_page + per_page < (results.length : Int)) ∧
    (∀ url, (paginate_results results page per_page base_url query_params).snd = some url →
        SubstrOf ("page=" ++ toString (page + 1)) url ∧
        SubstrOf ("per_page=" ++ toString per_page) url) ∧
    (paginate_results ((List.range 25).map fun i => i + 1) 2 10 "http://x/posts" none
        = ([11, 12, 13, 14, 15, 16, 17, 18, 19, 20],
           some "http://x/posts?page=3&per_page=10")) ∧
    (paginate_results ((List.range 25).map fun i => i + 1) 3 10 "http://x/posts" none
        = ([21, 22, 23, 24, 25], none)) := by
  have hslice : (paginate_results results page per_page base_url query_params).fst
      = (results.drop ((page - 1) * per_page).toNat).take per_page.toNat := by
    show pySlice results ((page - 1) * per_page) ((page - 1) * per_page + per_page) = _
    exact pySlice_nonneg results _ per_page
      (mul_nonneg (by omega) (by omega)) (by omega)
  refine ⟨hslice, ?_, ?_, ?_, by rfl, by rfl⟩
  · rw [hslice]
    exact le_trans (List.length_take_le _ _) le_rfl
  · show (if (page - 1) * per_page + per_page < (results.length : Int) then _ else none).isSome
        = true ↔ _
    split
    case isTrue h => simpa using h
    case isFalse h => simpa using h
  · intro url hurl
    revert hurl
    show (if (page - 1) * per_page + per_page < (results.length : Int) then _ else none)
        = some url → _
    split
    case isFalse h => intro hurl; cases hurl
    case isTrue h =>
      intro hurl
      rw [Option.some_inj] at hurl
      subst hurl
      constructor
      · have hmem : (("page", toString (page + 1)) : String × String)
            ∈ dictUpdate (dictUpdate (query_params.getD []) "page" (toString (page + 1)))
              "per_page" (toString per_page) :=
          mem_dictUpdate_of_ne _ _
            (mem_dictUpdate_self _ "page" (toString (page + 1)))
            (show ("page" : String) ≠ "per_page" by decide)
        have heq : ("page=" : String) ++ toString (page + 1)
            = "page" ++ "=" ++ toString (page + 1) := by
          have : ("page=" : String) = "page" ++ "=" := by rfl
          rw [this, String.append_assoc]
        rw [heq]
        exact substrOf_append_left _ (substrOf_joinQuery hmem)
      · have hmem : (("per_page", toString per_page) : String × String)
            ∈ dictUpdate (dictUpdate (query_params.getD []) "page" (toString (page + 1)))
              "per_page" (toString per_page) :=
          mem_dictUpdate_self _ "per_page" (toString per_page)
        have heq : ("per_page=" : String) ++ toString per_page
            = "per_page" ++ "=" ++ toString per_page := by
          have : ("per_page=" : String) = "per_page" ++ "=" := by rfl
          rw [this, String.append_assoc]
        rw [heq]
        exact substrOf_append_left _ (substrOf_joinQuery hmem)

/-! ## Lemmas about the collection operations -/

theorem find?_replaceFirst (post_id : String) (updated : Post)
    (hid : (updated.id == post_id) = true) :
    ∀ (posts : List Post) (p : Post), find_post_by_id posts post_id = some p →
      find_post_by_id (replaceFirst posts post_id updated) post_id = some updated := by
  intro posts
  induction posts with
  | nil =>
    intro p hp
    simp [find_post_by_id] at hp
  | cons q rest ih =>
    intro p hp
    unfold replaceFirst
    by_cases hq : (q.id == post_id) = true
    · rw [if_pos hq]
      simp [find_post_by_id, List.find?_cons, hid]
    · rw [if_neg hq]
      rw [find_post_by_id, List.find?_cons_of_neg _ (by simpa using hq)] at hp ⊢
      exact ih p hp

/-- C7: `delete` on an id with no post fails with `PostNotFound`; on an id
with a post it removes and returns that post, nothing else is removed, the
remaining posts keep their order, and a subsequent `find` on that id
returns absent. -/
theorem delete_post_spec (posts : List Post) (post_id : String) :
    (find_post_by_id posts post_id = none →
      ∃ m, delete_post posts post_id = .error (.postNotFound m)) ∧
    (∀ p, find_post_by_id posts post_id = some p →
      ∃ rest, delete_post posts post_id = .ok (rest, p) ∧
        find_post_by_id rest post_id = none ∧
        List.Sublist rest posts ∧
        (∀ q ∈ posts, q.id ≠ post_id → q ∈ rest)) := by
  constructor
  · intro h
    unfold delete_post
    rw [h]
    exact ⟨_, rfl⟩
  · intro p hp
    refine ⟨posts.filter fun q => q.id != post_id, ?_, ?_, ?_, ?_⟩
    · unfold delete_post
      rw [hp]
    · rw [find_post_by_id, List.find?_eq_none]
      intro x hx
      simpa using (List.mem_filter.mp hx).2
    · exact List.filter_sublist _
    · intro q hq hqid
      exact List.mem_filter.mpr ⟨hq, by simpa using hqid⟩

/-- Witness for `delete_post_spec`: both branches exercised on a one-post
collection. -/
theorem delete_post_spec_witness :
    (∃ m, delete_post [examplePost] "zzz" = .error (.postNotFound m)) ∧
    (∃ rest, delete_post [examplePost] "p1" = .ok (rest, examplePost) ∧
      find_post_by_id rest "p1" = none ∧
      List.Sublist rest [examplePost] ∧
      (∀ q ∈ [examplePost], q.id ≠ "p1" → q ∈ rest)) :=
  ⟨(delete_post_spec [examplePost] "zzz").1 (by rfl),
   (delete_post_spec [examplePost] "p1").2 examplePost (by rfl)⟩

/-- C8: `add` with fresh id followed by `find` on that id returns a post
with exactly the given title/content/author, the current timestamp, an
empty comment list and the fresh non-empty id, distinct from all prior
ids; id-uniqueness of the collection is preserved. The hypothesis
`hfresh` models the uniqueness of `uuid.uuid4().hex` (the generated hex
string is 32 characters, hence non-empty, and never collides for the
process lifetime); the route calls `add_post` with default categories and
tags, i.e. `[]`. -/
theorem add_post_spec (posts : List Post) (new_id title content author now : String)
    (hfresh : ∀ p ∈ posts, p.id ≠ new_id) (hne : new_id ≠ "") :
    find_post_by_id (add_post posts new_id title content author now [] []).fst new_id
      = some (add_post posts new_id title content author now [] []).snd ∧
    (add_post posts new_id title content author now [] []).snd
      = { id := new_id, title := title, content := content, author := author,
          date := now, comments := [], categories := [], tags := [] } ∧
    (add_post posts new_id title content author now [] []).snd.id ≠ "" ∧
    (∀ p ∈ posts, p.id ≠ (add_post posts new_id title content author now [] []).snd.id) ∧
    ((posts.map Post.id).Nodup →
      ((add_post posts new_id title content author now [] []).fst.map Post.id).Nodup) := by
  refine ⟨?_, rfl, hne, hfresh, ?_⟩
  · show find_post_by_id (posts ++ [_]) new_id = _
    rw [find_post_by_id, List.find?_append,
      List.find?_eq_none.mpr (fun x hx => by simpa using hfresh x hx)]
    simp [add_post]
  · intro hnd
    show ((posts ++ [_]).map Post.id).Nodup
    rw [List.map_append]
    refine List.Nodup.append hnd (by simp) ?_
    intro a ha hb
    simp only [add_post, List.map_cons, List.map_nil, List.mem_singleton] at hb
    obtain ⟨p, hp, rfl⟩ := List.mem_map.mp ha
    exact hfresh p hp hb

/-- Witness for `add_post_spec` on a concrete collection and fresh id. -/
theorem add_post_spec_witness :
    find_post_by_id
        (add_post [examplePost] "p2" "T" "C" "A" "2024-02-02T00:00:00+00:00" [] []).fst "p2"
      = some (add_post [examplePost] "p2" "T" "C" "A" "2024-02-02T00:00:00+00:00" [] []).snd ∧
    (add_post [examplePost] "p2" "T" "C" "A" "2024-02-02T00:00:00+00:00" [] []).snd
      = { id := "p2", title := "T", content := "C", author := "A",
          date := "2024-02-02T00:00:00+00:00", comments := [], categories := [], tags := [] } ∧
    (add_post [examplePost] "p2" "T" "C" "A" "2024-02-02T00:00:00+00:00" [] []).snd.id ≠ "" ∧
    (∀ p ∈ [examplePost],
      p.id ≠ (add_post [examplePost] "p2" "T" "C" "A" "2024-02-02T00:00:00+00:00" [] []).snd.id) ∧
    (([examplePost].map Post.id).Nodup →
      ((add_post [examplePost] "p2" "T" "C" "A" "2024-02-02T00:00:00+00:00" [] []).fst.map
          Post.id).Nodup) :=
  add_post_spec [examplePost] "p2" "T" "C" "A" "2024-02-02T00:00:00+00:00"
    (by intro p hp; rcases List.mem_singleton.mp hp with rfl; decide) (by decide)

/-- C9: `update` on an id with no post fails with `PostNotFound`; on an id
with a post it replaces title/content/author, regenerates `date` to the
current clock reading, keeps the id, and — whenever the clock has not gone
backwards since the post's stored date — the new date is ≥ the old one
(Python compares these ISO-8601 strings lexicographically, modelled by
`pyStrLe`); the updated post is what `find` subsequently returns. -/
theorem update_post_spec (posts : List Post) (post_id title content author now : String) :
    (find_post_by_id posts post_id = none →
      ∃ m, update_post posts post_id title content author now = .error (.postNotFound m)) ∧
    (∀ p, find_post_by_id posts post_id = some p →
      ∃ ps q, update_post posts post_id title content author now = .ok (ps, q) ∧
        q.title = title ∧ q.content = content ∧ q.author = author ∧
        q.date = now ∧ q.id = p.id ∧
        (pyStrLe p.date now = true → pyStrLe p.date q.date = true) ∧
        find_post_by_id ps post_id = some q) := by
  constructor
  · intro h
    unfold update_post
    rw [h]
    exact ⟨_, rfl⟩
  · intro p hp
    refine ⟨replaceFirst posts post_id
        { p with title := title, content := content, author := author, date := now },
      { p with title := title, content := content, author := author, date := now },
      ?_, rfl, rfl, rfl, rfl, rfl, fun h => h, ?_⟩
    · unfold update_post
      rw [hp]
    · refine find?_replaceFirst post_id _ ?_ posts p hp
      show (p.id == post_id) = true
      have hp2 : List.find? (fun q => q.id == post_id) posts = some p := hp
      have hp3 := List.find?_some hp2
      simpa using hp3

/-- Witness for `update_post_spec`: both branches exercised on a one-post
collection, with a clock reading later than the stored date. -/
theorem update_post_spec_witness :
    (∃ m, update_post [examplePost] "zzz" "T" "C" "A" "2024-02-02T00:00:00+00:00"
        = .error (.postNotFound m)) ∧
    (∃ ps q, update_post [examplePost] "p1" "T" "C" "A" "2024-02-02T00:00:00+00:00"
        = .ok (ps, q) ∧
      q.title = "T" ∧ q.content = "C" ∧ q.author = "A" ∧
      q.date = "2024-02-02T00:00:00+00:00" ∧ q.id = examplePost.id ∧
      (pyStrLe examplePost.date "2024-02-02T00:00:00+00:00" = true →
        pyStrLe examplePost.date q.date = true) ∧
      find_post_by_id ps "p1" = some q) :=
  ⟨(update_post_spec [examplePost] "zzz" "T" "C" "A" "2024-02-02T00:00:00+00:00").1 (by rfl),
   (update_post_spec [examplePost] "p1" "T" "C" "A" "2024-02-02T00:00:00+00:00").2
     examplePost (by rfl)⟩

/-- C10: on every domain-error path — `delete`/`update` on an unknown id
(`PostNotFound`), `sort` on an invalid field or direction (`InvalidData`),
`validate` on invalid data (`InvalidData`) — the in-memory posts list and
the backing file are left completely unchanged: the error is raised before
any mutation, and `save_posts` is not called (`sort` and `validate` never
touch the store at all, even on success). -/
theorem error_paths_leave_store_unchanged (s : Store)
    (post_id title content author now : String) (sort_by : Option String)
    (direction : String) (data : Option RequestData) :
    (∀ e, (delete_step s post_id).snd = .error e → (delete_step s post_id).fst = s) ∧
    (∀ e, (update_step s post_id title content author now).snd = .error e →
      (update_step s post_id title content author now).fst = s) ∧
    (sort_step s sort_by direction).fst = s ∧
    (validate_step s data).fst = s := by
  refine ⟨?_, ?_, rfl, rfl⟩
  · intro e
    unfold delete_step
    cases h : delete_post s.posts post_id with
    | ok v => simp
    | error e2 => simp
  · intro e
    unfold update_step
    cases h : update_post s.posts post_id title content author now with
    | ok v => simp
    | error e2 => simp

/-- Witness for `error_paths_leave_store_unchanged`: a failing delete and a
failing update on a concrete store leave it unchanged. -/
theorem error_paths_leave_store_unchanged_witness :
    ((delete_step ⟨[examplePost], save_posts [examplePost]⟩ "zzz").snd
        = .error (.postNotFound "Post with ID zzz not found") ∧
      (delete_step ⟨[examplePost], save_posts [examplePost]⟩ "zzz").fst
        = ⟨[examplePost], save_posts [examplePost]⟩) ∧
    ((update_step ⟨[examplePost], save_posts [examplePost]⟩ "zzz" "T" "C" "A" "D").snd
        = .error (.postNotFound "Post with ID zzz not found") ∧
      (update_step ⟨[examplePost], save_posts [examplePost]⟩ "zzz" "T" "C" "A" "D").fst
        = ⟨[examplePost], save_posts [examplePost]⟩) :=
  ⟨⟨by rfl,
    (error_paths_leave_store_unchanged ⟨[examplePost], save_posts [examplePost]⟩
      "zzz" "T" "C" "A" "D" none "asc" none).1 _ (by rfl)⟩,
   ⟨by rfl,
    (error_paths_leave_store_unchanged ⟨[examplePost], save_posts [examplePost]⟩
      "zzz" "T" "C" "A" "D" none "asc" none).2.1 _ (by rfl)⟩⟩

/-! ## Sorting: totality, transitivity and stability -/

instance sortRelTotal (field direction : String) : IsTotal Post (sortRel field direction) :=
  ⟨by
    intro a b
    unfold sortRel
    cases h : direction == "desc"
    · simp only [h, Bool.false_eq_true, if_false]
      exact pyStrLe_total _ _
    · simp only [h, if_true]
      exact (pyStrLe_total _ _).symm⟩

instance sortRelTrans (field direction : String) : IsTrans Post (sortRel field direction) :=
  ⟨by
    intro a b c hab hbc
    unfold sortRel at hab hbc ⊢
    cases h : direction == "desc"
    · simp only [h, Bool.false_eq_true, if_false] at hab hbc ⊢
      exact pyStrLe_trans hab hbc
    · simp only [h, if_true] at hab hbc ⊢
      exact pyStrLe_trans hbc hab⟩

theorem filter_orderedInsert {α β : Type} [DecidableEq β] (r : α → α → Prop) [DecidableRel r]
    (k : α → β) (hk : ∀ a b, k a = k b → r a b) (x : α) (c : β) :
    ∀ l : List α, ((l.orderedInsert r x).filter fun y => k y == c)
      = ((x :: l).filter fun y => k y == c) := by
  intro l
  induction l with
  | nil => rfl
  | cons b l ih =>
    by_cases hr : r x b
    · rw [List.orderedInsert, if_pos hr]
    · rw [List.orderedInsert, if_neg hr]
      by_cases hxc : k x = c
      · have hbc : k b ≠ c := by
          intro hb
          exact hr (hk x b (by rw [hxc, hb]))
        simp [List.filter_cons, beq_iff_eq, hxc, hbc, ih]
      · simp [List.filter_cons, beq_iff_eq, hxc, ih]

theorem filter_insertionSort {α β : Type} [DecidableEq β] (r : α → α → Prop) [DecidableRel r]
    (k : α → β) (hk : ∀ a b, k a = k b → r a b) (c : β) :
    ∀ l : List α,
      ((l.insertionSort r).filter fun y => k y == c) = l.filter fun y => k y == c := by
  intro l
  induction l with
  | nil => rfl
  | cons a l ih =>
    rw [List.insertionSort, filter_orderedInsert r k hk a c]
    simp only [List.filter_cons, ih]

theorem sortRel_of_eq_key (field direction : String) {a b : Post}
    (hab : sortFieldValue field a = sortFieldValue field b) : sortRel field direction a b := by
  unfold sortRel
  cases h : direction == "desc"
  · simp only [h, Bool.false_eq_true, if_false, hab]
    exact pyStrLe_refl _
  · simp only [h, if_true, hab]
    exact pyStrLe_refl _

/-- On a given whitelisted field and a valid direction, `sort_posts` returns
the stable insertion sort of the collection under the field comparison. -/
theorem sort_posts_eq_insertionSort (posts : List Post) (field direction : String)
    (hf : field ∈ ["title", "content", "author", "date"])
    (hd : direction ∈ ["asc", "desc"]) :
    sort_posts posts (some field) direction
      = .ok (List.insertionSort (sortRel field direction) posts) := by
  have hne : field ≠ "" := by
    rintro rfl
    simp at hf
  have ht : pyTruthyStr (some field) = true := by
    simp [pyTruthyStr, hne]
  unfold sort_posts
  rw [if_pos ht]
  simp only [Option.getD_some]
  rw [if_neg (not_not_intro hf), if_neg (not_not_intro hd)]

/-- A minimal post with the given string as both id and title (used in
concrete sorting and searching checks). -/
def titledPost (t : String) : Post :=
  { id := t, title := t, content := "c", author := "a", date := "d",
    comments := [], categories := [], tags := [] }

/-- C4: for every field in {title, content, author, date} and direction in
{asc, desc}, `sort` succeeds and returns a stable comparison sort of the
posts by the string value of that field — a permutation of the collection,
ordered ascending unless the direction is "desc", with posts of equal field
value kept in their relative collection order (expressed as: filtering the
output on any field value gives the same list as filtering the input); and
sorting posts titled ["b","a","c"] by title descending yields the order
["c","b","a"]. -/
theorem sort_posts_sorted_stable (posts : List Post) (field direction : String)
    (hf : field ∈ ["title", "content", "author", "date"])
    (hd : direction ∈ ["asc", "desc"]) :
    (∃ l, sort_posts posts (some field) direction = .ok l ∧
      l.Perm posts ∧
      (direction = "asc" →
        l.Sorted fun a b =>
          pyStrLe (sortFieldValue field a) (sortFieldValue field b) = true) ∧
      (direction = "desc" →
        l.Sorted fun a b =>
          pyStrLe (sortFieldValue field b) (sortFieldValue field a) = true) ∧
      (∀ c : String, (l.filter fun p => sortFieldValue field p == c)
          = posts.filter fun p => sortFieldValue field p == c)) ∧
    sort_posts [titledPost "b", titledPost "a", titledPost "c"] (some "title") "desc"
      = .ok [titledPost "c", titledPost "b", titledPost "a"] := by
  refine ⟨⟨List.insertionSort (sortRel field direction) posts,
    sort_posts_eq_insertionSort posts field direction hf hd,
    List.perm_insertionSort _ _, ?_, ?_, ?_⟩, by rfl⟩
  · rintro rfl
    refine (List.sorted_insertionSort (sortRel field "asc") posts).imp ?_
    intro a b hab
    simpa [sortRel] using hab
  · rintro rfl
    refine (List.sorted_insertionSort (sortRel field "desc") posts).imp ?_
    intro a b hab
    simpa [sortRel] using hab
  · intro c
    exact filter_insertionSort (sortRel field direction) (sortFieldValue field)
      (fun a b hab => sortRel_of_eq_key field direction hab) c posts

/-- Witness for `sort_posts_sorted_stable` at field "title", direction
"desc" on a three-post collection. -/
theorem sort_posts_sorted_stable_witness :
    (∃ l, sort_posts [titledPost "b", titledPost "a", titledPost "c"] (some "title") "desc"
        = .ok l ∧
      l.Perm [titledPost "b", titledPost "a", titledPost "c"] ∧
      ("desc" = "asc" →
        l.Sorted fun a b =>
          pyStrLe (sortFieldValue "title" a) (sortFieldValue "title" b) = true) ∧
      ("desc" = "desc" →
        l.Sorted fun a b =>
          pyStrLe (sortFieldValue "title" b) (sortFieldValue "title" a) = true) ∧
      (∀ c : String, (l.filter fun p => sortFieldValue "title" p == c)
          = [titledPost "b", titledPost "a", titledPost "c"].filter
              fun p => sortFieldValue "title" p == c)) ∧
    sort_posts [titledPost "b", titledPost "a", titledPost "c"] (some "title") "desc"
      = .ok [titledPost "c", titledPost "b", titledPost "a"] :=
  sort_posts_sorted_stable [titledPost "b", titledPost "a", titledPost "c"]
    "title" "desc" (by decide) (by decide)

/-- C5 counterexample: the claim says that for every given direction outside
{asc, desc} sort fails with InvalidData, but with the field omitted the
direction is never examined: direction "bogus" is not in {asc, desc}, yet
sort returns the collection unchanged instead of failing. -/
theorem sort_direction_unchecked_counterexample :
    "bogus" ∉ (["asc", "desc"] : List String) ∧ sort_posts [] none "bogus" = .ok [] :=
  ⟨by decide, by rfl⟩

/-- C5 (amended): sort with the field omitted (`None`) — or given as the
empty string, which Python's truthiness test treats the same way — returns
the posts in collection order regardless of direction; when a non-empty
field is given, a field outside {title, content, author, date} fails with
InvalidData, and a direction outside {asc, desc} fails with InvalidData. -/
theorem sort_posts_validation_spec (posts : List Post) (field direction : String)
    (hf : field ≠ "") :
    (∀ d, sort_posts posts none d = .ok posts) ∧
    (∀ d, sort_posts posts (some "") d = .ok posts) ∧
    (field ∉ (["title", "content", "author", "date"] : List String) →
      sort_posts posts (some field) direction
        = .error (.invalidData "Invalid sort_by parameter")) ∧
    (direction ∉ (["asc", "desc"] : List String) →
      ∃ m, sort_posts posts (some field) direction = .error (.invalidData m)) := by
  have ht : pyTruthyStr (some field) = true := by
    simp [pyTruthyStr, hf]
  have herr : field ∉ (["title", "content", "author", "date"] : List String) →
      sort_posts posts (some field) direction
        = .error (.invalidData "Invalid sort_by parameter") := by
    intro h
    unfold sort_posts
    rw [if_pos ht]
    simp only [Option.getD_some]
    rw [if_pos h]
  refine ⟨fun d => rfl, fun d => rfl, herr, ?_⟩
  intro h
  by_cases hmem : field ∈ (["title", "content", "author", "date"] : List String)
  · refine ⟨"Invalid direction parameter", ?_⟩
    unfold sort_posts
    rw [if_pos ht]
    simp only [Option.getD_some]
    rw [if_neg (not_not_intro hmem), if_pos h]
  · exact ⟨"Invalid sort_by parameter", herr hmem⟩

/-- Witness for `sort_posts_validation_spec` at a concrete invalid field and
direction. -/
theorem sort_posts_validation_spec_witness :
    (∀ d, sort_posts [examplePost] none d = .ok [examplePost]) ∧
    (∀ d, sort_posts [examplePost] (some "") d = .ok [examplePost]) ∧
    ("bogus" ∉ (["title", "content", "author", "date"] : List String) →
      sort_posts [examplePost] (some "bogus") "weird"
        = .error (.invalidData "Invalid sort_by parameter")) ∧
    ("weird" ∉ (["asc", "desc"] : List String) →
      ∃ m, sort_posts [examplePost] (some "bogus") "weird" = .error (.invalidData m)) :=
  sort_posts_validation_spec [examplePost] "bogus" "weird" (by decide)

/-! ## Search -/

/-- Specification-level match predicate: the lowercased query occurs inside
the lowercased title, content or author. -/
def SpecSearchMatch (query : String) (post : Post) : Prop :=
  SubstrOf (pyLower query) (pyLower post.title) ∨
  SubstrOf (pyLower query) (pyLower post.content) ∨
  SubstrOf (pyLower query) (pyLower post.author)

/-- C6: for every non-empty query, search returns exactly those posts whose
title, content or author contains the query as a case-insensitive
substring, and returns them in collection order (the result is a sublist of
the collection, and membership is exactly the match predicate). -/
theorem search_filter_spec (posts : List Post) (query : String) (hq : query ≠ "") :
    (∀ p, postMatches query p = true ↔ SpecSearchMatch query p) ∧
    List.Sublist (searchFilter posts query) posts ∧
    (∀ p, p ∈ searchFilter posts query ↔ p ∈ posts ∧ SpecSearchMatch query p) := by
  have hmatch : ∀ p, postMatches query p = true ↔ SpecSearchMatch query p := by
    intro p
    unfold postMatches SpecSearchMatch
    simp [pyStrIn_iff, or_assoc]
  refine ⟨hmatch, List.filter_sublist _, ?_⟩
  intro p
  rw [searchFilter, List.mem_filter, hmatch]

/-- Witness for `search_filter_spec` on the spec's seeded two-post example
with query "first". -/
theorem search_filter_spec_witness :
    (∀ p, postMatches "first" p = true ↔ SpecSearchMatch "first" p) ∧
    List.Sublist (searchFilter [titledPost "First post", titledPost "Second post"] "first")
      [titledPost "First post", titledPost "Second post"] ∧
    (∀ p, p ∈ searchFilter [titledPost "First post", titledPost "Second post"] "first"
      ↔ p ∈ [titledPost "First post", titledPost "Second post"] ∧ SpecSearchMatch "first" p) :=
  search_filter_spec [titledPost "First post", titledPost "Second post"] "first" (by decide)

/-! ## Route-level pagination-parameter validation -/

/-- C3 counterexample: the claim says every list-returning route rejects a
non-positive `page` with a 400 error before paginate runs, but the search
route checks only for `ValueError` (non-integers): a request with
`page=0`, `per_page=10` and a matching query is answered with 200 — the
pagination helper ran with the non-positive page 0 and produced an empty
slice plus a next-page URL pointing at page 1. -/
theorem search_route_accepts_nonpositive_page :
    search_posts_route [examplePost] "http://x/posts" (some "hello")
        (some (.ok 0)) (some (.ok 10))
      = .ok ([], some "http://x/posts?query=hello&page=1&per_page=10") := by rfl

/-- C3 (amended): a non-integer `page` or `per_page` is rejected with 400 by
`GET /api/v1/posts` and `GET /api/v1/posts/search` (their `ValueError`
handlers); the sort route has no `ValueError` handler, so when sorting
succeeds a non-integer value falls through to the generic handler and
yields 500 — and when the sort parameters are invalid the route answers
400 before ever reading `page`/`per_page`. A non-positive integer
`page`/`per_page` is rejected with 400 by `GET /api/v1/posts` only: the
search and sort routes perform no positivity check and hand any parsed
integers (including non-positive ones) to `paginate_results` — the search
route then answers 200, and the sort route never answers 400 for them (its
only remaining failure mode is the 500 from `jsonify` on a non-empty
slice). -/
theorem routes_pagination_validation (posts : List Post) (base_url : String)
    (query : Option String) (sort_by direction : Option String)
    (pageArg perPageArg : Option (Except Unit Int)) (page per_page : Int) :
    ((pageArg = some (.error ()) ∨ perPageArg = some (.error ())) →
      get_posts_route posts base_url pageArg perPageArg = .error 400 ∧
      search_posts_route posts base_url query pageArg perPageArg = .error 400 ∧
      (∀ l, sort_posts posts sort_by (direction.getD "asc") = .ok l →
        sort_posts_route posts base_url sort_by direction pageArg perPageArg
          = .error 500) ∧
      (∀ e, sort_posts posts sort_by (direction.getD "asc") = .error e →
        sort_posts_route posts base_url sort_by direction pageArg perPageArg
          = .error 400)) ∧
    (pageArg = some (.ok page) → perPageArg = some (.ok per_page) →
      (page < 1 ∨ per_page < 1) →
      get_posts_route posts base_url pageArg perPageArg = .error 400) ∧
    (pageArg = some (.ok page) → perPageArg = some (.ok per_page) →
      pyTruthyStr query = true →
      (search_posts_route posts base_url query pageArg perPageArg).isOk = true) ∧
    (pageArg = some (.ok page) → perPageArg = some (.ok per_page) → sort_by = none →
      sort_posts_route posts base_url sort_by direction pageArg perPageArg
        ≠ .error 400) := by
  refine ⟨?_, ?_, ?_, ?_⟩
  · rintro (rfl | rfl)
    · refine ⟨?_, ?_, ?_, ?_⟩
      · cases h : pyGetIntArg perPageArg 10 with
        | ok v => simp [get_posts_route, pyGetIntArg, h]
        | error e => simp [get_posts_route, pyGetIntArg, h]
      · cases h : pyGetIntArg perPageArg 10 with
        | ok v => simp [search_posts_route, pyGetIntArg, h]
        | error e => simp [search_posts_route, pyGetIntArg, h]
      · intro l hl
        unfold sort_posts_route
        rw [hl]
        cases h : pyGetIntArg perPageArg 10 with
        | ok v => simp [pyGetIntArg, h]
        | error e => simp [pyGetIntArg, h]
      · intro e he
        unfold sort_posts_route
        rw [he]
    · refine ⟨?_, ?_, ?_, ?_⟩
      · cases h : pyGetIntArg pageArg 1 with
        | ok v => simp [get_posts_route, pyGetIntArg, h]
        | error e => simp [get_posts_route, pyGetIntArg, h]
      · cases h : pyGetIntArg pageArg 1 with
        | ok v => simp [search_posts_route, pyGetIntArg, h]
        | error e => simp [search_posts_route, pyGetIntArg, h]
      · intro l hl
        unfold sort_posts_route
        rw [hl]
        cases h : pyGetIntArg pageArg 1 with
        | ok v => simp [pyGetIntArg, h]
        | error e => simp [pyGetIntArg, h]
      · intro e he
        unfold sort_posts_route
        rw [he]
  · rintro rfl rfl hlt
    have : (page < 1 || per_page < 1) = true := by
      rcases hlt with h | h <;> simp [h]
    simp [get_posts_route, pyGetIntArg, this]
  · rintro rfl rfl hquery
    simp [search_posts_route, pyGetIntArg, hquery, Except.isOk, Except.toBool]
  · rintro rfl rfl rfl
    have hs : sort_posts posts none (direction.getD "asc") = .ok posts := rfl
    unfold sort_posts_route
    rw [hs]
    simp only [pyGetIntArg, Option.getD_some]
    split <;> simp

/-- Witness for `routes_pagination_validation`: concrete requests exercising
the 400 branch of `GET /api/v1/posts`, the pass-through branches of the
search and sort routes at page 0, and the sort route's 500 on a
non-integer value. -/
theorem routes_pagination_validation_witness :
    get_posts_route [examplePost] "u" (some (.ok 0)) (some (.ok 10)) = .error 400 ∧
    (search_posts_route [examplePost] "u" (some "q") (some (.ok 0))
        (some (.ok 10))).isOk = true ∧
    sort_posts_route [examplePost] "u" none none (some (.ok 0)) (some (.ok 10))
      ≠ .error 400 ∧
    get_posts_route [examplePost] "u" (some (.error ())) (some (.ok 10)) = .error 400 ∧
    sort_posts_route [examplePost] "u" none none (some (.error ())) (some (.ok 10))
      = .error 500 :=
  ⟨(routes_pagination_validation [examplePost] "u" (some "q") none none
      (some (.ok 0)) (some (.ok 10)) 0 10).2.1 rfl rfl (Or.inl (by decide)),
   (routes_pagination_validation [examplePost] "u" (some "q") none none
      (some (.ok 0)) (some (.ok 10)) 0 10).2.2.1 rfl rfl (by rfl),
   (routes_pagination_validation [examplePost] "u" (some "q") none none
      (some (.ok 0)) (some (.ok 10)) 0 10).2.2.2 rfl rfl rfl,
   ((routes_pagination_validation [examplePost] "u" (some "q") none none
      (some (.error ())) (some (.ok 10)) 0 10).1 (Or.inl rfl)).1,
   ((routes_pagination_validation [examplePost] "u" none none none
      (some (.error ())) (some (.ok 10)) 0 10).1 (Or.inl rfl)).2.2.1
     [examplePost] (by rfl)⟩

/-- Witness for `paginate_results_spec` at a concrete input. -/
theorem paginate_results_spec_witness :
    ((paginate_results [1, 2, 3] 1 2 "u" none).fst
        = (([1, 2, 3] : List Nat).drop (((1 : Int) - 1) * 2).toNat).take (2 : Int).toNat) ∧
    ((paginate_results [1, 2, 3] 1 2 "u" none).fst.length ≤ (2 : Int).toNat) ∧
    (((paginate_results [1, 2, 3] 1 2 "u" none).snd.isSome = true)
        ↔ ((1 : Int) - 1) * 2 + 2 < (([1, 2, 3] : List Nat).length : Int)) ∧
    (∀ url, (paginate_results [1, 2, 3] 1 2 "u" none).snd = some url →
        SubstrOf ("page=" ++ toString ((1 : Int) + 1)) url ∧
        SubstrOf ("per_page=" ++ toString (2 : Int)) url) ∧
    (paginate_results ((List.range 25).map fun i => i + 1) 2 10 "http://x/posts" none
        = ([11, 12, 13, 14, 15, 16, 17, 18, 19, 20],
           some "http://x/posts?page=3&per_page=10")) ∧
    (paginate_results ((List.range 25).map fun i => i + 1) 3 10 "http://x/posts" none
        = ([21, 22, 23, 24, 25], none)) :=
  paginate_results_spec [1, 2, 3] 1 2 "u" none (by decide) (by decide)

end MasterBlog
